import Mathlib

/-!
Verification development for the `agent_no_framework` repository.

This file shallowly embeds the parts of the code that the specification
claims talk about:

* the OpenAI-style message channel (`Memory` in
  `agent_orchestration/agents.py` and `raw_agent/main.py`),
* the executor tool-calling loop (`BaseAgent.run` in
  `agent_orchestration/agents.py`, `agent_step` in `raw_agent/main.py`),
* the planner fallback heuristics (`PlannerAgent.plan` in
  `agent_orchestration/agents.py` and `agent_scratchpad/agents.py`),
* the orchestrator step loop (`run_orchestration` in
  `agent_orchestration/main.py`),
* the request-payload builders (`chat_completion` in
  `agent_orchestration/llm.py` and `agent_orchestration_multiple_tool/llm.py`),
* the division tool (`divide_numbers` in `agent_scratchpad/tool.py`).

Conventions of the embedding:
* Python `None`-able values become `Option`; Python dict field access
  `d.get(k)` becomes the corresponding `Option` field.
* The language-model backend (`chat_completion`'s HTTP round trip) is an
  oracle `replies : Nat → List Msg → Message`: the k-th gateway call made
  with channel `mem` returns `replies k mem`.  Every concrete behaviour of
  the real backend is one such oracle.
* Tool callables are abstract functions `Args → ToolOutcome`, where the
  outcome records whether the Python callable returned a value, raised
  `TypeError`, or raised some other exception.  Exceptions are carried in
  an `Except`/result type instead of Python's dynamic propagation.
* `json.loads` (restricted to tool-argument objects, as the tool-call
  protocol expects) is an abstract parameter `jsonLoads : String → Option Args`;
  `none` models `json.JSONDecodeError`.
* `\x27` in string literals is the ASCII apostrophe, matching the
  single quotes in the source f-strings.
-/

/-- Keyword-argument mapping passed to a tool (the parsed JSON object of a
tool call), modelled as an association list of string key/value pairs. -/
abbrev Args : Type := List (String × String)

/-- Empty keyword-argument mapping, Python `{}`. -/
def emptyArgs : Args := []

/-- Outcome of calling a Python tool callable `f(**args)`: a returned value
(stringified by `add_tool_result`), a raised `TypeError`, or any other
raised exception.  The carried string is `str(e)` for exceptions. -/
inductive ToolOutcome
  | ok (value : String)
  | exnTypeError (msg : String)
  | exnOther (msg : String)
deriving DecidableEq, Repr

/-- Raw `function.arguments` field of a tool call as delivered by the
backend: a JSON string, an already-structured mapping, or any other value
(including Python `None`), mirroring the `isinstance` dispatch in the
source. -/
inductive RawArgs
  | rstr (s : String)
  | rdict (d : Args)
  | rother
deriving Repr, DecidableEq

/-- ToolCall as consumed by both loop variants: `tc.get("id")`,
`tc.get("function", {}).get("name")`, and
`tc.get("function", {}).get("arguments")`. -/
structure ToolCall where
  id : Option String
  fn : Option String
  raw_args : RawArgs
deriving Repr, DecidableEq

/-- One turn of the conversation channel (`Memory.history` entry). -/
inductive Msg
  | system (content : String)
  | user (content : String)
  | assistant (content : String)
  | assistantToolCalls (tool_calls : List ToolCall)
  | toolResult (tool_call_id : String) (name : Option String) (content : String)
deriving Repr, DecidableEq

/-- Assistant message returned by `chat_completion`:
`message.get("content")` and `message.get("tool_calls") or []`. -/
structure Message where
  content : Option String
  tool_calls : List ToolCall
deriving Repr, DecidableEq

/-- Rendering of an `Option String` inside a Python f-string: `None` for
the absent case, the raw string otherwise. -/
def pyStr : Option String → String
  | none => "None"
  | some s => s

/-- Substring test, the semantics of Python `needle in haystack`. -/
def containsSub (haystack needle : String) : Bool :=
  haystack.toList.tails.any (fun t => needle.toList.isPrefixOf t)

/-- Python `str.lower()` on the ASCII strings this code handles, written
over the character list so that it evaluates by kernel reduction. -/
def pyLower (s : String) : String := String.mk (s.data.map Char.toLower)

/-- Python `str.strip()` (whitespace from both ends), written over the
character list so that it evaluates by kernel reduction. -/
def pyStrip (s : String) : String :=
  String.mk (((s.data.dropWhile Char.isWhitespace).reverse.dropWhile
    Char.isWhitespace).reverse)

/-- Tool registry: the `TOOL_FUNCS` name-to-callable mapping. -/
def Registry : Type := List (String × (Args → ToolOutcome))

/-- Registry lookup with a possibly-absent function name
(`fn not in TOOL_FUNCS` where `fn` may be Python `None`). -/
def lookupTool (reg : Registry) (fn : Option String) : Option (Args → ToolOutcome) :=
  match fn with
  | none => none
  | some n => reg.lookup n

/-- Argument parsing shared by both loop variants
(`agents.py` lines 136-145, `raw_agent/main.py` lines 127-136):
a string is JSON-decoded when its strip is non-empty, decode failure and
the empty string give `{}`; a dict is taken as-is; anything else
(including `None`) gives `{}`. -/
def parseArgs (jsonLoads : String → Option Args) : RawArgs → Args
  | RawArgs.rstr s => if pyStrip s = "" then emptyArgs else (jsonLoads s).getD emptyArgs
  | RawArgs.rdict d => d
  | RawArgs.rother => emptyArgs

/-- Rendering of a tool outcome by the `try/except` in
`agent_orchestration/agents.py` lines 151-156 (identical code in
`agent_scratchpad/agents.py` lines 267-272): a `TypeError` and every other
exception are both converted to error strings. -/
def renderOutcomeOrch (fn : Option String) : ToolOutcome → String
  | ToolOutcome.ok v => v
  | ToolOutcome.exnTypeError e =>
      "Error invoking \x27" ++ pyStr fn ++ "\x27: " ++ e
  | ToolOutcome.exnOther e =>
      "Tool \x27" ++ pyStr fn ++ "\x27 failed: " ++ e

/-- Tool dispatch of `agent_orchestration/agents.py` lines 148-156: unknown
names yield an error string, known tools are invoked and every exception
is rendered as a string.  No branch raises, hence the plain `.ok`. -/
def dispatchOrch (reg : Registry) (fn : Option String) (args : Args) :
    Except String String :=
  match lookupTool reg fn with
  | none => Except.ok ("Error: unknown tool \x27" ++ pyStr fn ++ "\x27.")
  | some f => Except.ok (renderOutcomeOrch fn (f args))

/-- Tool dispatch of `raw_agent/main.py` lines 140-147: unknown names yield
an error string and `TypeError` is converted, but any other exception is
not caught and propagates (`Except.error`). -/
def dispatchRaw (reg : Registry) (fn : Option String) (args : Args) :
    Except String String :=
  match lookupTool reg fn with
  | none => Except.ok ("Error: unknown tool \x27" ++ pyStr fn ++ "\x27.")
  | some f =>
      match f args with
      | ToolOutcome.ok v => Except.ok v
      | ToolOutcome.exnTypeError e =>
          Except.ok ("Error when invoking \x27" ++ pyStr fn ++ "\x27: " ++ e)
      | ToolOutcome.exnOther e => Except.error e

/-- Static data of an executor loop: the tool dispatch (registry plus
exception handling), the abstract `json.loads`, and the generator of
fresh `call_...` identifiers standing for `uuid.uuid4()` (indexed by the
position of the call in the current batch). -/
structure LoopCfg where
  dispatch : Option String → Args → Except String String
  jsonLoads : String → Option Args
  fresh : Nat → String

/-- Call-identifier resolution `tc.get("id") or f"call_{uuid...}"`:
the provided id when it is present and non-empty (truthy), otherwise a
synthesized fresh one. -/
def resolveId (fresh : Nat → String) (i : Nat) (tc : ToolCall) : String :=
  if tc.id.getD "" = "" then fresh i else tc.id.getD ""

/-- Processing of one tool call (loop body of `for tc in tool_calls`):
parse the arguments, dispatch, and on success build the appended tool
turn `add_tool_result(call_id, fn, result)`.  A propagating exception
aborts with `.error`. -/
def execCall (cfg : LoopCfg) (i : Nat) (tc : ToolCall) : Except String Msg :=
  let args := parseArgs cfg.jsonLoads tc.raw_args
  match cfg.dispatch tc.fn args with
  | Except.error e => Except.error e
  | Except.ok result => Except.ok (Msg.toolResult (resolveId cfg.fresh i tc) tc.fn result)

/-- Processing of a whole tool-call batch in order, collecting the tool
turns to append; the first propagating exception aborts the batch. -/
def execCallsFrom (cfg : LoopCfg) (i : Nat) : List ToolCall → Except String (List Msg)
  | [] => Except.ok []
  | tc :: rest =>
      match execCall cfg i tc with
      | Except.error e => Except.error e
      | Except.ok m =>
          match execCallsFrom cfg (i + 1) rest with
          | Except.error e => Except.error e
          | Except.ok ms => Except.ok (m :: ms)

/-- Result of one executor run: final content, final channel and number of
gateway calls made, or a propagated exception together with the number of
gateway calls made before it. -/
inductive RunResult
  | done (content : String) (mem : List Msg) (calls : Nat)
  | exn (e : String) (calls : Nat)
deriving Repr, DecidableEq

/-- Number of gateway calls recorded in a run result. -/
def RunResult.calls : RunResult → Nat
  | RunResult.done _ _ c => c
  | RunResult.exn _ c => c

/-- Whether the run finished without a propagated exception. -/
def RunResult.isDone : RunResult → Bool
  | RunResult.done _ _ _ => true
  | RunResult.exn _ _ => false

/-- Termination handling of `BaseAgent.run` (both the no-tool-calls return
at lines 120-125 and the budget-exhausted return at lines 164-169):
`content = (message.get("content") or "").strip()`, appended as an
assistant turn only when non-empty, and returned. -/
def finishTurn (msg : Message) (mem : List Msg) (calls : Nat) : RunResult :=
  let content := pyStrip (msg.content.getD "")
  RunResult.done content (if content = "" then mem else mem ++ [Msg.assistant content]) calls

/-- The `while True` loop of `BaseAgent.run`
(`agent_orchestration/agents.py` lines 115-169).  `fuel` is the number of
loop iterations still allowed to recurse: the Python loop increments
`loops` each iteration and stops once `loops >= max_tool_loops` right
after the follow-up gateway call, so entering with
`fuel = max_tool_loops - 1` reproduces it exactly.  `calls` counts the
gateway calls made so far; the follow-up call with channel `mem2` returns
`replies calls mem2`. -/
def runLoop (cfg : LoopCfg) (replies : Nat → List Msg → Message) :
    Nat → Message → List Msg → Nat → RunResult
  | 0, msg, mem, calls =>
    if msg.tool_calls.isEmpty then
      finishTurn msg mem calls
    else
      match execCallsFrom cfg 0 msg.tool_calls with
      | Except.error e => RunResult.exn e calls
      | Except.ok results =>
          let mem2 := mem ++ [Msg.assistantToolCalls msg.tool_calls] ++ results
          finishTurn (replies calls mem2) mem2 (calls + 1)
  | fuel + 1, msg, mem, calls =>
    if msg.tool_calls.isEmpty then
      finishTurn msg mem calls
    else
      match execCallsFrom cfg 0 msg.tool_calls with
      | Except.error e => RunResult.exn e calls
      | Except.ok results =>
          let mem2 := mem ++ [Msg.assistantToolCalls msg.tool_calls] ++ results
          runLoop cfg replies fuel (replies calls mem2) mem2 (calls + 1)

/-- Embedding of `BaseAgent.run` (`agent_orchestration/agents.py` lines
108-169): append the user turn, make the first gateway call, then run the
tool loop with iteration budget `max_tool_loops`. -/
def BaseAgent.run (cfg : LoopCfg) (replies : Nat → List Msg → Message)
    (mem0 : List Msg) (user_input : String) (max_tool_loops : Nat) : RunResult :=
  let mem1 := mem0 ++ [Msg.user user_input]
  runLoop cfg replies (max_tool_loops - 1) (replies 0 mem1) mem1 1

/-- Result of `agent_step` in `raw_agent/main.py`: the function returns
nothing, so only the final channel and the gateway-call count are
observable, unless an uncaught exception propagates out of it. -/
inductive RawResult
  | finished (mem : List Msg) (calls : Nat)
  | exn (e : String) (calls : Nat)
deriving Repr, DecidableEq

/-- Number of gateway calls recorded in a raw-agent result. -/
def RawResult.calls : RawResult → Nat
  | RawResult.finished _ c => c
  | RawResult.exn _ c => c

/-- Whether `agent_step` returned without a propagated exception. -/
def RawResult.isFinished : RawResult → Bool
  | RawResult.finished _ _ => true
  | RawResult.exn _ _ => false

/-- Exit handling of the raw loop (`raw_agent/main.py` lines 107-112 and
155-160): `if message.get("content"): memory.add("assistant", ...)` —
the content is appended unstripped when truthy, then the loop breaks. -/
def rawFinishMem (msg : Message) (mem : List Msg) : List Msg :=
  match msg.content with
  | some c => if c = "" then mem else mem ++ [Msg.assistant c]
  | none => mem

/-- The `while True` loop of `agent_step` (`raw_agent/main.py` lines
102-160), same iteration/budget structure as `runLoop` but with the
raw variant's exit handling and with `dispatchRaw` supplied in `cfg`. -/
def rawLoop (cfg : LoopCfg) (replies : Nat → List Msg → Message) :
    Nat → Message → List Msg → Nat → RawResult
  | 0, msg, mem, calls =>
    if msg.tool_calls.isEmpty then
      RawResult.finished (rawFinishMem msg mem) calls
    else
      match execCallsFrom cfg 0 msg.tool_calls with
      | Except.error e => RawResult.exn e calls
      | Except.ok results =>
          let mem2 := mem ++ [Msg.assistantToolCalls msg.tool_calls] ++ results
          RawResult.finished (rawFinishMem (replies calls mem2) mem2) (calls + 1)
  | fuel + 1, msg, mem, calls =>
    if msg.tool_calls.isEmpty then
      RawResult.finished (rawFinishMem msg mem) calls
    else
      match execCallsFrom cfg 0 msg.tool_calls with
      | Except.error e => RawResult.exn e calls
      | Except.ok results =>
          let mem2 := mem ++ [Msg.assistantToolCalls msg.tool_calls] ++ results
          rawLoop cfg replies fuel (replies calls mem2) mem2 (calls + 1)

/-- Embedding of `agent_step` (`raw_agent/main.py` lines 94-160): append
the user turn, make the first gateway call, loop with budget
`max_tool_loops`.  The tool dispatch of this variant is `dispatchRaw`. -/
def agent_step (reg : Registry) (jsonLoads : String → Option Args)
    (fresh : Nat → String) (replies : Nat → List Msg → Message)
    (mem0 : List Msg) (user_input : String) (max_tool_loops : Nat) : RawResult :=
  let mem1 := mem0 ++ [Msg.user user_input]
  rawLoop ⟨dispatchRaw reg, jsonLoads, fresh⟩ replies (max_tool_loops - 1) (replies 0 mem1) mem1 1

/-- Plan-step dictionary `{"agent": ..., "input": ...}` as consumed with
`step.get("agent")` / `step.get("input")` by the orchestrator; the planner
fallback always fills both keys. -/
structure StepDict where
  agent : Option String
  input : Option String
deriving Repr, DecidableEq

/-- Planner output dictionary `{"plan": [...], "notes": ...}`. -/
structure PlannerObj where
  plan : List StepDict
  notes : String
deriving Repr, DecidableEq

/-- Keyword test `"weather" in lowered` of the orchestration fallback. -/
def weatherKw (user_input : String) : Bool :=
  containsSub (pyLower user_input) "weather"

/-- Keyword test
`any(k in lowered for k in ["info", "information", "about", "tell me about", "where is"])`
of the orchestration fallback. -/
def infoKw (user_input : String) : Bool :=
  ["info", "information", "about", "tell me about", "where is"].any
    (fun k => containsSub (pyLower user_input) k)

/-- Keyword test `"news" in lowered or "headlines" in lowered or "article" in lowered`
of the scratchpad fallback. -/
def newsKw (user_input : String) : Bool :=
  containsSub (pyLower user_input) "news" || containsSub (pyLower user_input) "headlines" ||
    containsSub (pyLower user_input) "article"

/-- Keyword test
`any(k in lowered for k in ["calculate", "math", "add", "subtract", "multiply", "divide", "sum"])`
of the scratchpad fallback. -/
def mathKw (user_input : String) : Bool :=
  ["calculate", "math", "add", "subtract", "multiply", "divide", "sum"].any
    (fun k => containsSub (pyLower user_input) k)

/-- Fallback heuristic of `PlannerAgent.plan`
(`agent_orchestration/agents.py` lines 204-211): keyword matches over the
lowercased request append a WeatherAgent step and/or a LocationAgent step,
each carrying the raw `user_input`, with `notes = "fallback plan"`. -/
def fallback_plan (user_input : String) : PlannerObj :=
  let plan1 : List StepDict :=
    if weatherKw user_input then [⟨some "WeatherAgent", some user_input⟩] else []
  let plan2 : List StepDict :=
    if infoKw user_input then [⟨some "LocationAgent", some user_input⟩] else []
  ⟨plan1 ++ plan2, "fallback plan"⟩

/-- Fallback heuristic of the scratchpad variant's `PlannerAgent.plan`
(`agent_scratchpad/agents.py` lines 336-343): news keywords append a
NewsAgent step, math keywords append a MathAgent step. -/
def fallback_plan_sp (user_input : String) : PlannerObj :=
  let plan1 : List StepDict :=
    if newsKw user_input then [⟨some "NewsAgent", some user_input⟩] else []
  let plan2 : List StepDict :=
    if mathKw user_input then [⟨some "MathAgent", some user_input⟩] else []
  ⟨plan1 ++ plan2, "fallback plan"⟩

/-- Embedding of `PlannerAgent.plan` (`agent_orchestration/agents.py`
lines 187-212) at the granularity of the claims: `decoded` is the result
of the robust JSON extraction of the model reply (`none` models any
failure of slicing plus `json.loads`); on failure the deterministic
fallback is returned, never an exception. -/
def PlannerAgent.plan (decoded : Option PlannerObj) (user_input : String) : PlannerObj :=
  match decoded with
  | some obj => obj
  | none => fallback_plan user_input

/-- Embedding of the scratchpad variant's `PlannerAgent.plan`
(`agent_scratchpad/agents.py` lines 313-347), same shape with its own
fallback heuristic. -/
def PlannerAgentSp.plan (decoded : Option PlannerObj) (user_input : String) : PlannerObj :=
  match decoded with
  | some obj => obj
  | none => fallback_plan_sp user_input

/-- Names of `AGENT_REGISTRY` in `agent_orchestration/main.py` lines 7-12. -/
def AGENT_REGISTRY : List String :=
  ["PlannerAgent", "WeatherAgent", "LocationAgent", "SynthesizerAgent"]

/-- Membership test `agent_name not in AGENT_REGISTRY` (negated), where
`agent_name = step.get("agent")` may be Python `None`. -/
def knownAgent (a : Option String) : Bool :=
  match a with
  | some nm => AGENT_REGISTRY.contains nm
  | none => false

/-- Warning recorded for a skipped step,
`logger.warning(f"[Orchestrator] Unknown agent ..., skipping.")`. -/
def warnText (a : Option String) : String :=
  "[Orchestrator] Unknown agent \x27" ++ pyStr a ++ "\x27, skipping."

/-- Step input resolution `agent_input = step.get("input") or user_input`:
the user input when the key is absent or its value is empty (falsy). -/
def stepInput (user_input : String) (step : StepDict) : String :=
  match step.input with
  | some s => if s = "" then user_input else s
  | none => user_input

/-- Python dict assignment `outputs[agent_name] = result` on an
insertion-ordered association list: overwrite in place when the key
exists, append otherwise. -/
def dictSet (m : List (String × String)) (k v : String) : List (String × String) :=
  if m.any (fun p => p.1 = k) then
    m.map (fun p => if p.1 = k then (k, v) else p)
  else m ++ [(k, v)]

/-- The plan-execution loop of `run_orchestration`
(`agent_orchestration/main.py` lines 32-48): for each step in order,
unknown agent names are recorded as a warning and skipped; known ones are
run (the abstract `runAgent` covers `_create_agent` plus `agent.run`,
including the `TypeError` rebinding retry, both of which produce a result
string) and their result stored under the agent name. -/
def orchLoop (runAgent : String → String → String) (user_input : String)
    (outs : List (String × String)) (warns : List String) :
    List StepDict → List (String × String) × List String
  | [] => (outs, warns)
  | step :: rest =>
    if knownAgent step.agent then
      orchLoop runAgent user_input
        (dictSet outs (step.agent.getD "")
          (runAgent (step.agent.getD "") (stepInput user_input step)))
        warns rest
    else
      orchLoop runAgent user_input outs (warns ++ [warnText step.agent]) rest

/-- Outputs map and recorded warnings produced by the step loop of
`run_orchestration` on a plan. -/
def run_orchestration_steps (runAgent : String → String → String)
    (user_input : String) (plan : List StepDict) :
    List (String × String) × List String :=
  orchLoop runAgent user_input [] [] plan

/-- Value of `response_format` in an outbound request body:
`{"type": "json_object"}` as passed by `PlannerAgent.plan` in
`agent_orchestration/agents.py`, or the
`{"type": "json_schema", "json_schema": {name, strict, schema}}` value
built by the multiple-tool gateway (the JSON schema contents are opaque
to the claims and omitted). -/
inductive RespFormat
  | jsonObject
  | jsonSchema (name : String) (strict : Bool)
deriving Repr, DecidableEq

/-- Advertised tool declaration (an `ALL_TOOL_SPECS` entry); only its
identity matters to the payload claims, the parameter schema is opaque. -/
structure ToolSpec where
  name : String
  description : String
deriving Repr, DecidableEq

/-- Value stored under one key of the outbound JSON body. -/
inductive PVal
  | pStr (s : String)
  | pMsgs (m : List Msg)
  | pTools (t : List ToolSpec)
  | pTemp (t : ℚ)
  | pFmt (f : RespFormat)

/-- Constant `OPENAI_MODEL` of `agent_orchestration/config.py`. -/
def OPENAI_MODEL : String := "Qwen3-4B-AWQ"

/-- Constant `DEFAULT_TEMPERATURE` of `agent_orchestration/config.py`. -/
def DEFAULT_TEMPERATURE : ℚ := 0.2

/-- Request body built by `chat_completion` in
`agent_orchestration/llm.py` lines 22-30, as the insertion-ordered list
of its keys and values: `model`, `messages`, `temperature` always, then
`tools` and `tool_choice` when supplied.  The `response_format` parameter
is accepted by the function (and passed by `PlannerAgent.plan`) but no
statement of the source ever inserts it into the payload, which this
embedding mirrors. -/
def chat_completion_payload (messages : List Msg)
    (tools : Option (List ToolSpec)) (tool_choice : Option String)
    (temperature : ℚ) (response_format : Option RespFormat) :
    List (String × PVal) :=
  let payload := [("model", PVal.pStr OPENAI_MODEL),
                  ("messages", PVal.pMsgs messages),
                  ("temperature", PVal.pTemp temperature)]
  match tools with
  | none => payload
  | some t =>
      match tool_choice with
      | none => payload ++ [("tools", PVal.pTools t)]
      | some c => payload ++ [("tools", PVal.pTools t), ("tool_choice", PVal.pStr c)]

/-- Pydantic response model handed to the multiple-tool gateway: its class
name (the schema itself is opaque to the claims). -/
structure RespModel where
  name : String
deriving Repr, DecidableEq

/-- Request body built by `chat_completion` in
`agent_orchestration_multiple_tool/llm.py` lines 25-43: the base keys,
then `response_format` (derived from `response_model`) when supplied,
then `tools`/`tool_choice` when supplied; `model` comes from the
environment and is a parameter here. -/
def chat_completion_payload_mt (model : String) (messages : List Msg)
    (tools : Option (List ToolSpec)) (tool_choice : Option String)
    (temperature : ℚ) (response_model : Option RespModel) :
    List (String × PVal) :=
  let payload := [("model", PVal.pStr model),
                  ("messages", PVal.pMsgs messages),
                  ("temperature", PVal.pTemp temperature)]
  let payload :=
    match response_model with
    | none => payload
    | some rm =>
        payload ++ [("response_format", PVal.pFmt (RespFormat.jsonSchema rm.name.toLower true))]
  match tools with
  | none => payload
  | some t =>
      match tool_choice with
      | none => payload ++ [("tools", PVal.pTools t)]
      | some c => payload ++ [("tools", PVal.pTools t), ("tool_choice", PVal.pStr c)]

/-- Embedding of `divide_numbers` (`agent_scratchpad/tool.py` lines
170-175), with numbers as rationals: the zero divisor is rejected with a
fixed error string before any division happens. -/
def divide_numbers (a b : ℚ) : String :=
  if b = 0 then "Error: Cannot divide by zero"
  else toString a ++ " divided by " ++ toString b ++ " equals " ++ toString (a / b)

/-- Channel built by `Memory.__init__` (`agent_orchestration/agents.py`
lines 66-69): fresh history, with the system turn appended only when the
prompt is truthy (non-empty). -/
def Memory.init (system_prompt : String) : List Msg :=
  if system_prompt = "" then [] else [Msg.system system_prompt]

/-- Channel owned by a freshly constructed `BaseAgent`
(`agent_orchestration/agents.py` lines 95-106): an injected channel gets
the system turn appended unconditionally at its current end; otherwise a
private `Memory(system_prompt)` is created. -/
def BaseAgent.initMemory (system_prompt : String) :
    Option (List Msg) → List Msg
  | some m => m ++ [Msg.system system_prompt]
  | none => Memory.init system_prompt

/-- Whether a turn is a system turn. -/
def isSystemTurn : Msg → Bool
  | Msg.system _ => true
  | _ => false

/-- Number of system turns in a channel. -/
def countSystem (l : List Msg) : Nat := (l.filter isSystemTurn).length

/-! Theorems settling the claims. -/

/-- C9: for every number `a`, `divide_numbers(a, 0)` returns the fixed
result string carrying an explicit cannot-divide-by-zero message (here:
it lowercases to one containing "cannot divide by zero"); being a total
string-valued function of the embedding, it raises no exception and
performs no division, so no NaN or infinity can arise. -/
theorem C9_divide_by_zero (a : ℚ) :
    divide_numbers a 0 = "Error: Cannot divide by zero" ∧
    containsSub (pyLower (divide_numbers a 0)) "cannot divide by zero" = true := by
  have h : divide_numbers a 0 = "Error: Cannot divide by zero" := by
    simp [divide_numbers]
  exact ⟨h, by rw [h]; decide⟩

/-- C10: constructing a `BaseAgent` with an injected channel appends the
system turn unconditionally at the end of that channel, whatever it
already contains (in particular the system-turn count always grows by
one); without an injected channel and with a non-empty prompt the agent
gets the fresh channel whose only turn is the system turn, and with an
empty prompt the fresh channel is empty. -/
theorem C10_init_memory (system_prompt : String) (mem : List Msg) :
    BaseAgent.initMemory system_prompt (some mem) = mem ++ [Msg.system system_prompt] ∧
    countSystem (BaseAgent.initMemory system_prompt (some mem)) = countSystem mem + 1 ∧
    (system_prompt ≠ "" → BaseAgent.initMemory system_prompt none = [Msg.system system_prompt]) ∧
    BaseAgent.initMemory "" none = [] := by
  refine ⟨rfl, ?_, ?_, rfl⟩
  · simp [BaseAgent.initMemory, countSystem, List.filter_append, isSystemTurn]
  · intro h
    simp [BaseAgent.initMemory, Memory.init, h]

/-- Witness for C10 at a concrete prompt and a concrete already-populated
channel. -/
theorem C10_init_memory_witness :
    BaseAgent.initMemory "You are WeatherAgent." none = [Msg.system "You are WeatherAgent."] ∧
    countSystem (BaseAgent.initMemory "You are WeatherAgent."
      (some [Msg.system "old prompt", Msg.user "hi"])) = 2 := by
  have h := C10_init_memory "You are WeatherAgent." [Msg.system "old prompt", Msg.user "hi"]
  refine ⟨h.2.2.1 (by decide), ?_⟩
  rw [h.2.1]
  decide

/-- C8 (refutation on the cited gateway): the body built by
`agent_orchestration/llm.py` for a call that does supply a
`response_format` argument has exactly the keys `model`, `messages`,
`temperature` (tools being absent in the planner's call), so no
`response_format` key is present; the sibling gateway of
`agent_orchestration_multiple_tool/llm.py` does include a
`response_format` key when a response model is supplied, which is the
behaviour the specification describes. -/
theorem C8_response_format_dropped :
    ((chat_completion_payload [Msg.user "Plan this request"] none (some "auto")
        DEFAULT_TEMPERATURE (some RespFormat.jsonObject)).map Prod.fst =
      ["model", "messages", "temperature"]) ∧
    ("response_format" ∉ (chat_completion_payload [Msg.user "Plan this request"] none (some "auto")
        DEFAULT_TEMPERATURE (some RespFormat.jsonObject)).map Prod.fst) ∧
    ("response_format" ∈ (chat_completion_payload_mt "model" [Msg.user "Plan this request"] none
        (some "auto") DEFAULT_TEMPERATURE (some ⟨"PlannerOutput"⟩)).map Prod.fst) := by
  refine ⟨rfl, by decide, by decide⟩

/-- C8 (general form of the omission): whatever arguments the
orchestration gateway receives, the body it builds never contains a
`response_format` key. -/
theorem C8_response_format_never_sent (messages : List Msg)
    (tools : Option (List ToolSpec)) (tool_choice : Option String)
    (temperature : ℚ) (response_format : Option RespFormat) :
    "response_format" ∉ (chat_completion_payload messages tools tool_choice
      temperature response_format).map Prod.fst := by
  rcases tools with _ | t
  · simp [chat_completion_payload]
  · rcases tool_choice with _ | c <;> simp [chat_completion_payload]

/-- C5: when structured decoding of the planner reply fails, `plan()`
returns the deterministic fallback (it never fails), the fallback carries
`notes = "fallback plan"`, each of its (possibly zero) steps is a
syntactically complete step for a catalog agent carrying the raw user
input, and the choice of agents is a pure function of keyword presence in
the lowercased input; the scratchpad variant behaves the same with its
own keywords. -/
theorem C5_planner_fallback (user_input : String) :
    PlannerAgent.plan none user_input = fallback_plan user_input ∧
    (fallback_plan user_input).notes = "fallback plan" ∧
    (∀ s ∈ (fallback_plan user_input).plan,
      (s.agent = some "WeatherAgent" ∨ s.agent = some "LocationAgent") ∧
      s.input = some user_input) ∧
    (∀ v : String, weatherKw user_input = weatherKw v → infoKw user_input = infoKw v →
      (fallback_plan user_input).plan.map StepDict.agent =
        (fallback_plan v).plan.map StepDict.agent) ∧
    PlannerAgentSp.plan none user_input = fallback_plan_sp user_input ∧
    (fallback_plan_sp user_input).notes = "fallback plan" ∧
    (∀ s ∈ (fallback_plan_sp user_input).plan,
      (s.agent = some "NewsAgent" ∨ s.agent = some "MathAgent") ∧
      s.input = some user_input) ∧
    (∀ v : String, newsKw user_input = newsKw v → mathKw user_input = mathKw v →
      (fallback_plan_sp user_input).plan.map StepDict.agent =
        (fallback_plan_sp v).plan.map StepDict.agent) := by
  refine ⟨rfl, rfl, ?_, ?_, rfl, rfl, ?_, ?_⟩
  · intro s hs
    simp only [fallback_plan, List.mem_append] at hs
    rcases hs with hs | hs <;>
      [skip; skip] <;>
      · split at hs <;> simp_all
  · intro v h1 h2
    simp only [fallback_plan, h1, h2]
    cases hw : weatherKw v <;> cases hi : infoKw v <;> simp [hw, hi]
  · intro s hs
    simp only [fallback_plan_sp, List.mem_append] at hs
    rcases hs with hs | hs <;>
      [skip; skip] <;>
      · split at hs <;> simp_all
  · intro v h1 h2
    simp only [fallback_plan_sp, h1, h2]
    cases hn : newsKw v <;> cases hm : mathKw v <;> simp [hn, hm]

/-- Witness for C5 at a concrete request whose keywords select both
agents of each variant, and at a second input with the same keyword
presence. -/
theorem C5_planner_fallback_witness :
    (PlannerAgent.plan none "weather info for Hanoi" =
      fallback_plan "weather info for Hanoi") ∧
    ((fallback_plan "weather info for Hanoi").plan.map StepDict.agent =
      (fallback_plan "WEATHER information please").plan.map StepDict.agent) ∧
    (∀ s ∈ (fallback_plan "weather info for Hanoi").plan,
      (s.agent = some "WeatherAgent" ∨ s.agent = some "LocationAgent") ∧
      s.input = some "weather info for Hanoi") := by
  have h := C5_planner_fallback "weather info for Hanoi"
  exact ⟨h.1, h.2.2.2.1 "WEATHER information please" (by decide) (by decide), h.2.2.1⟩

/-- The warnings collected by the orchestrator step loop are exactly one
per unknown-agent step, in plan order, appended after those already
recorded. -/
theorem orchLoop_snd (runAgent : String → String → String) (user_input : String) :
    ∀ (plan : List StepDict) (outs : List (String × String)) (warns : List String),
      (orchLoop runAgent user_input outs warns plan).2 =
        warns ++ (plan.filter (fun s => !knownAgent s.agent)).map
          (fun s => warnText s.agent)
  | [], outs, warns => by simp [orchLoop]
  | step :: rest, outs, warns => by
    by_cases h : knownAgent step.agent
    · simp [orchLoop, h, orchLoop_snd runAgent user_input rest]
    · simp [orchLoop, h, orchLoop_snd runAgent user_input rest,
        List.append_assoc]

/-- The outputs map built by the orchestrator step loop does not depend on
the warnings accumulated so far. -/
theorem orchLoop_fst_warns (runAgent : String → String → String) (user_input : String) :
    ∀ (plan : List StepDict) (outs : List (String × String)) (warns warns' : List String),
      (orchLoop runAgent user_input outs warns plan).1 =
        (orchLoop runAgent user_input outs warns' plan).1
  | [], outs, warns, warns' => by simp [orchLoop]
  | step :: rest, outs, warns, warns' => by
    by_cases h : knownAgent step.agent
    · simp only [orchLoop, h, if_true]
      exact orchLoop_fst_warns runAgent user_input rest _ warns warns'
    · simp only [orchLoop, h, Bool.false_eq_true, if_false]
      exact orchLoop_fst_warns runAgent user_input rest outs
        (warns ++ [warnText step.agent]) (warns' ++ [warnText step.agent])

/-- Skipped steps leave the outputs map untouched: running a plan produces
the same outputs map as running only its known-agent steps. -/
theorem orchLoop_fst_filter (runAgent : String → String → String) (user_input : String) :
    ∀ (plan : List StepDict) (outs : List (String × String)) (warns : List String),
      (orchLoop runAgent user_input outs warns plan).1 =
        (orchLoop runAgent user_input outs warns
          (plan.filter (fun s => knownAgent s.agent))).1
  | [], outs, warns => by simp [orchLoop]
  | step :: rest, outs, warns => by
    by_cases h : knownAgent step.agent
    · simp only [List.filter_cons, h]
      simp [orchLoop, h, orchLoop_fst_filter runAgent user_input rest]
    · simp only [List.filter_cons, h]
      simp only [Bool.false_eq_true, if_false, orchLoop, h]
      rw [orchLoop_fst_filter runAgent user_input rest,
        orchLoop_fst_warns runAgent user_input _ _ (warns ++ [warnText step.agent]) warns]

/-- Python dict assignment preserves a key predicate that the new key
satisfies. -/
theorem dictSet_all (p : String × String → Bool) (m : List (String × String))
    (k v : String) (hm : m.all p = true) (hk : p (k, v) = true) :
    (dictSet m k v).all p = true := by
  unfold dictSet
  split
  · simp only [List.all_eq_true] at hm ⊢
    intro x hx
    rcases List.mem_map.mp hx with ⟨q, hq, rfl⟩
    by_cases h : q.1 = k
    · simpa [h] using hk
    · simpa [h] using hm q hq
  · rw [List.all_append]
    simp only [Bool.and_eq_true]
    exact ⟨hm, by simpa using hk⟩

/-- Every key of the outputs map the orchestrator step loop builds names a
registry agent, provided the keys accumulated so far do. -/
theorem orchLoop_fst_keys (runAgent : String → String → String) (user_input : String) :
    ∀ (plan : List StepDict) (outs : List (String × String)) (warns : List String),
      outs.all (fun p => AGENT_REGISTRY.contains p.1) = true →
      ((orchLoop runAgent user_input outs warns plan).1).all
        (fun p => AGENT_REGISTRY.contains p.1) = true
  | [], outs, warns => by simpa [orchLoop] using id
  | step :: rest, outs, warns => by
    intro h0
    by_cases h : knownAgent step.agent
    · have hnm : AGENT_REGISTRY.contains (step.agent.getD "") = true := by
        rcases ha : step.agent with _ | nm
        · rw [ha] at h; simp [knownAgent] at h
        · rw [ha] at h; simpa [knownAgent] using h
      simp only [orchLoop, h, if_true]
      exact orchLoop_fst_keys runAgent user_input rest _ _
        (dictSet_all _ outs _ _ h0 hnm)
    · simp only [orchLoop, h, Bool.false_eq_true, if_false]
      exact orchLoop_fst_keys runAgent user_input rest _ _ h0

/-- C6: the orchestrator records one warning per unknown-agent plan step
(in order), never aborts (the remaining steps produce the same outputs as
if the unknown steps were absent), every output key is a registry agent,
and a plan of one known and one unknown step yields exactly the known
step's output plus the one warning. -/
theorem C6_skip_unknown_agents (runAgent : String → String → String)
    (user_input : String) (plan : List StepDict) :
    ((run_orchestration_steps runAgent user_input plan).2 =
      (plan.filter (fun s => !knownAgent s.agent)).map (fun s => warnText s.agent)) ∧
    ((run_orchestration_steps runAgent user_input plan).1 =
      (run_orchestration_steps runAgent user_input
        (plan.filter (fun s => knownAgent s.agent))).1) ∧
    ((run_orchestration_steps runAgent user_input plan).1.all
      (fun p => AGENT_REGISTRY.contains p.1) = true) ∧
    (∀ s1 s2 : StepDict, knownAgent s1.agent = true → knownAgent s2.agent = false →
      run_orchestration_steps runAgent user_input [s1, s2] =
        ([(s1.agent.getD "", runAgent (s1.agent.getD "") (stepInput user_input s1))],
         [warnText s2.agent])) := by
  refine ⟨?_, ?_, ?_, ?_⟩
  · simpa using orchLoop_snd runAgent user_input plan [] []
  · exact orchLoop_fst_filter runAgent user_input plan [] []
  · exact orchLoop_fst_keys runAgent user_input plan [] [] (by simp)
  · intro s1 s2 h1 h2
    simp [run_orchestration_steps, orchLoop, h1, h2, dictSet]

/-- Witness for C6 on the two-step scenario: a valid WeatherAgent step
plus a step naming an unregistered agent. -/
theorem C6_skip_unknown_agents_witness :
    run_orchestration_steps (fun nm inp => nm ++ " ran " ++ inp) "the query"
        [⟨some "WeatherAgent", some "Hanoi"⟩, ⟨some "OracleAgent", some "x"⟩] =
      ([("WeatherAgent", "WeatherAgent ran Hanoi")],
       ["[Orchestrator] Unknown agent \x27OracleAgent\x27, skipping."]) := by
  have h := C6_skip_unknown_agents (fun nm inp => nm ++ " ran " ++ inp) "the query" []
  have h4 := h.2.2.2 (StepDict.mk (some "WeatherAgent") (some "Hanoi"))
    (StepDict.mk (some "OracleAgent") (some "x")) (by decide) (by decide)
  simpa [stepInput, warnText, pyStr] using h4

/-- Gateway-call count of a normal/forced return. -/
theorem finishTurn_calls (msg : Message) (mem : List Msg) (calls : Nat) :
    (finishTurn msg mem calls).calls = calls := rfl

/-- Upper bound on gateway calls made by the executor loop: at most one
follow-up call per remaining iteration plus the final one. -/
theorem runLoop_calls_le (cfg : LoopCfg) (replies : Nat → List Msg → Message) :
    ∀ (fuel : Nat) (msg : Message) (mem : List Msg) (calls : Nat),
      (runLoop cfg replies fuel msg mem calls).calls ≤ calls + fuel + 1
  | 0, msg, mem, calls => by
    simp only [runLoop]
    by_cases hE : msg.tool_calls.isEmpty
    · simp [hE, finishTurn, RunResult.calls] <;> omega
    · rcases hx : execCallsFrom cfg 0 msg.tool_calls with e | results <;>
        simp [hE, hx, finishTurn, RunResult.calls] <;> omega
  | fuel + 1, msg, mem, calls => by
    simp only [runLoop]
    by_cases hE : msg.tool_calls.isEmpty
    · simp [hE, finishTurn, RunResult.calls] <;> omega
    · rcases hx : execCallsFrom cfg 0 msg.tool_calls with e | results
      · simp [hE, hx, RunResult.calls] <;> omega
      · simp only [hE, Bool.false_eq_true, if_false, hx]
        have := runLoop_calls_le cfg replies fuel
          (replies calls (mem ++ [Msg.assistantToolCalls msg.tool_calls] ++ results))
          (mem ++ [Msg.assistantToolCalls msg.tool_calls] ++ results) (calls + 1)
        omega

/-- Lower bound on gateway calls: the loop never forgets calls already
made. -/
theorem runLoop_calls_ge (cfg : LoopCfg) (replies : Nat → List Msg → Message) :
    ∀ (fuel : Nat) (msg : Message) (mem : List Msg) (calls : Nat),
      calls ≤ (runLoop cfg replies fuel msg mem calls).calls
  | 0, msg, mem, calls => by
    simp only [runLoop]
    by_cases hE : msg.tool_calls.isEmpty
    · simp [hE, finishTurn, RunResult.calls] <;> omega
    · rcases hx : execCallsFrom cfg 0 msg.tool_calls with e | results <;>
        simp [hE, hx, finishTurn, RunResult.calls] <;> omega
  | fuel + 1, msg, mem, calls => by
    simp only [runLoop]
    by_cases hE : msg.tool_calls.isEmpty
    · simp [hE, finishTurn, RunResult.calls] <;> omega
    · rcases hx : execCallsFrom cfg 0 msg.tool_calls with e | results
      · simp [hE, hx, RunResult.calls] <;> omega
      · simp only [hE, Bool.false_eq_true, if_false, hx]
        have := runLoop_calls_ge cfg replies fuel
          (replies calls (mem ++ [Msg.assistantToolCalls msg.tool_calls] ++ results))
          (mem ++ [Msg.assistantToolCalls msg.tool_calls] ++ results) (calls + 1)
        omega

/-- Upper bound on gateway calls for the raw-agent loop, same argument. -/
theorem rawLoop_calls_le (cfg : LoopCfg) (replies : Nat → List Msg → Message) :
    ∀ (fuel : Nat) (msg : Message) (mem : List Msg) (calls : Nat),
      (rawLoop cfg replies fuel msg mem calls).calls ≤ calls + fuel + 1
  | 0, msg, mem, calls => by
    simp only [rawLoop]
    by_cases hE : msg.tool_calls.isEmpty
    · simp [hE, RawResult.calls]
    · rcases hx : execCallsFrom cfg 0 msg.tool_calls with e | results <;>
        simp [hE, hx, RawResult.calls]
  | fuel + 1, msg, mem, calls => by
    simp only [rawLoop]
    by_cases hE : msg.tool_calls.isEmpty
    · simp [hE, RawResult.calls] <;> omega
    · rcases hx : execCallsFrom cfg 0 msg.tool_calls with e | results
      · simp [hE, hx, RawResult.calls] <;> omega
      · simp only [hE, Bool.false_eq_true, if_false, hx]
        have := rawLoop_calls_le cfg replies fuel
          (replies calls (mem ++ [Msg.assistantToolCalls msg.tool_calls] ++ results))
          (mem ++ [Msg.assistantToolCalls msg.tool_calls] ++ results) (calls + 1)
        omega

/-- A dispatch that always returns a string makes every tool batch
succeed. -/
theorem execCallsFrom_total (cfg : LoopCfg)
    (hd : ∀ fn args, ∃ s, cfg.dispatch fn args = Except.ok s) :
    ∀ (i : Nat) (tcs : List ToolCall), ∃ ms, execCallsFrom cfg i tcs = Except.ok ms
  | _, [] => ⟨[], rfl⟩
  | i, tc :: rest => by
    obtain ⟨s, hs⟩ := hd tc.fn (parseArgs cfg.jsonLoads tc.raw_args)
    obtain ⟨ms, hms⟩ := execCallsFrom_total cfg hd (i + 1) rest
    exact ⟨Msg.toolResult (resolveId cfg.fresh i tc) tc.fn s :: ms,
      by simp [execCallsFrom, execCall, hs, hms]⟩

/-- A dispatch that always returns a string makes the executor loop end in
`done`, never in a propagated exception. -/
theorem runLoop_isDone (cfg : LoopCfg) (replies : Nat → List Msg → Message)
    (hd : ∀ fn args, ∃ s, cfg.dispatch fn args = Except.ok s) :
    ∀ (fuel : Nat) (msg : Message) (mem : List Msg) (calls : Nat),
      (runLoop cfg replies fuel msg mem calls).isDone = true
  | 0, msg, mem, calls => by
    simp only [runLoop]
    by_cases hE : msg.tool_calls.isEmpty
    · simp [hE, finishTurn, RunResult.isDone]
    · obtain ⟨ms, hms⟩ := execCallsFrom_total cfg hd 0 msg.tool_calls
      simp [hE, hms, finishTurn, RunResult.isDone]
  | fuel + 1, msg, mem, calls => by
    simp only [runLoop]
    by_cases hE : msg.tool_calls.isEmpty
    · simp [hE, finishTurn, RunResult.isDone]
    · obtain ⟨ms, hms⟩ := execCallsFrom_total cfg hd 0 msg.tool_calls
      simp only [hE, Bool.false_eq_true, if_false, hms]
      exact runLoop_isDone cfg replies hd fuel _ _ _

/-- The orchestration-variant dispatch returns a string on every input:
each of its branches is an `Except.ok`. -/
theorem dispatchOrch_total (reg : Registry) (fn : Option String) (args : Args) :
    ∃ s, dispatchOrch reg fn args = Except.ok s := by
  unfold dispatchOrch
  cases h : lookupTool reg fn <;> simp

/-- Registry holding a single tool whose Python body raises a
non-`TypeError` exception (for instance `raise ValueError("boom")`). -/
def boomRegistry : Registry := [("boom", fun _ => ToolOutcome.exnOther "boom")]

/-- Model reply whose single tool call targets that tool with an
already-structured empty argument mapping. -/
def boomReply : Message :=
  ⟨none, [⟨some "call_1", some "boom", RawArgs.rdict []⟩]⟩

/-- C1 counterexample: in the `raw_agent` variant a tool that raises a
non-`TypeError` exception is not caught — the exception propagates out of
`agent_step` after the single gateway call, so the claim that every
variant converts every invocation failure into a textual result is false
on this repository. -/
theorem C1_counterexample :
    agent_step boomRegistry (fun _ => none) (fun _ => "gen") (fun _ _ => boomReply)
      [Msg.system "You are a helpful agent with ability to use tools to answer questions."]
      "trigger" 3 = RawResult.exn "boom" 1 := by
  rfl

/-- C1 (amended): in the `agent_orchestration` variant (and the
identically-coded `agent_scratchpad` variant) every tool-invocation
failure is converted into a textual error result and the run always ends
in `done`, never in a propagated exception; in the `raw_agent` variant a
`TypeError` (wrong arguments) is likewise converted, and the only
failures that propagate out of the run are the non-`TypeError` exceptions
raised by a registered tool. -/
theorem C1_tool_failures_converted :
    (∀ (reg : Registry) (jsonLoads : String → Option Args) (fresh : Nat → String)
        (replies : Nat → List Msg → Message) (mem0 : List Msg) (user_input : String)
        (max_tool_loops : Nat),
      (BaseAgent.run ⟨dispatchOrch reg, jsonLoads, fresh⟩ replies mem0 user_input
        max_tool_loops).isDone = true) ∧
    (∀ (reg : Registry) (fn : Option String) (args : Args) (e : String),
      dispatchRaw reg fn args = Except.error e →
      ∃ f, lookupTool reg fn = some f ∧ f args = ToolOutcome.exnOther e) ∧
    (∀ (reg : Registry) (fn : Option String) (args : Args) (f : Args → ToolOutcome)
        (e : String),
      lookupTool reg fn = some f → f args = ToolOutcome.exnTypeError e →
      dispatchRaw reg fn args =
        Except.ok ("Error when invoking \x27" ++ pyStr fn ++ "\x27: " ++ e)) := by
  refine ⟨?_, ?_, ?_⟩
  · intro reg jsonLoads fresh replies mem0 user_input max_tool_loops
    exact runLoop_isDone _ replies (fun fn args => dispatchOrch_total reg fn args) _ _ _ _
  · intro reg fn args e h
    rcases hL : lookupTool reg fn with _ | f
    · simp [dispatchRaw, hL] at h
    · refine ⟨f, rfl, ?_⟩
      rcases hf : f args with v | e' | e'
      · simp [dispatchRaw, hL, hf] at h
      · simp [dispatchRaw, hL, hf] at h
      · simp [dispatchRaw, hL, hf] at h
        rw [h]
  · intro reg fn args f e hL hf
    simp [dispatchRaw, hL, hf]

/-- Witness for C1 at concrete inputs: an orchestration run over the
failing registry still ends in `done`, and the raw dispatch error on the
same registry does come from the tool's non-`TypeError` exception. -/
theorem C1_tool_failures_converted_witness :
    (BaseAgent.run ⟨dispatchOrch boomRegistry, fun _ => none, fun _ => "gen"⟩
      (fun _ _ => boomReply) [] "trigger" 3).isDone = true ∧
    (∃ f, lookupTool boomRegistry (some "boom") = some f ∧
      f [] = ToolOutcome.exnOther "boom") := by
  constructor
  · exact C1_tool_failures_converted.1 boomRegistry (fun _ => none) (fun _ => "gen")
      (fun _ _ => boomReply) [] "trigger" 3
  · exact C1_tool_failures_converted.2.1 boomRegistry (some "boom") [] "boom" (by rfl)

/-- C2: for every executor run with iteration budget `n ≥ 1` — whatever
the dispatch, backend replies and tool behaviour — at most `n + 1` model
gateway calls are issued (`runLoop`/`rawLoop` being structurally
recursive on the remaining budget, the run also terminates); this covers
the `agent_orchestration` loop and the `raw_agent` loop. -/
theorem C2_call_budget (cfg : LoopCfg) (reg : Registry)
    (jsonLoads : String → Option Args) (fresh : Nat → String)
    (replies : Nat → List Msg → Message) (mem0 : List Msg) (user_input : String)
    (n : Nat) (hn : 1 ≤ n) :
    (BaseAgent.run cfg replies mem0 user_input n).calls ≤ n + 1 ∧
    (agent_step reg jsonLoads fresh replies mem0 user_input n).calls ≤ n + 1 := by
  constructor
  · have h := runLoop_calls_le cfg replies (n - 1)
      (replies 0 (mem0 ++ [Msg.user user_input])) (mem0 ++ [Msg.user user_input]) 1
    simp only [BaseAgent.run]
    omega
  · have h := rawLoop_calls_le ⟨dispatchRaw reg, jsonLoads, fresh⟩ replies (n - 1)
      (replies 0 (mem0 ++ [Msg.user user_input])) (mem0 ++ [Msg.user user_input]) 1
    simp only [agent_step]
    omega

/-- Witness for C2 at budget 3 on the concrete failing registry and a
backend that keeps requesting tools. -/
theorem C2_call_budget_witness :
    1 ≤ 3 ∧
    (BaseAgent.run ⟨dispatchOrch boomRegistry, fun _ => none, fun _ => "gen"⟩
      (fun _ _ => boomReply) [] "q" 3).calls ≤ 4 ∧
    (agent_step boomRegistry (fun _ => none) (fun _ => "gen") (fun _ _ => boomReply)
      [] "q" 3).calls ≤ 4 := by
  have h := C2_call_budget ⟨dispatchOrch boomRegistry, fun _ => none, fun _ => "gen"⟩
    boomRegistry (fun _ => none) (fun _ => "gen") (fun _ _ => boomReply) [] "q" 3
    (by decide)
  exact ⟨by decide, h.1, h.2⟩

/-- A non-empty tool-call batch that executes successfully forces at least
one follow-up gateway call. -/
theorem runLoop_calls_succ (cfg : LoopCfg) (replies : Nat → List Msg → Message)
    (hd : ∀ fn args, ∃ s, cfg.dispatch fn args = Except.ok s)
    (fuel : Nat) (msg : Message) (mem : List Msg) (calls : Nat)
    (hne : msg.tool_calls.isEmpty = false) :
    calls + 1 ≤ (runLoop cfg replies fuel msg mem calls).calls := by
  obtain ⟨ms, hms⟩ := execCallsFrom_total cfg hd 0 msg.tool_calls
  cases fuel with
  | zero => simp [runLoop, hne, hms, finishTurn, RunResult.calls]
  | succ fuel =>
    simp only [runLoop, hne, Bool.false_eq_true, if_false, hms]
    have := runLoop_calls_ge cfg replies fuel
      (replies calls (mem ++ [Msg.assistantToolCalls msg.tool_calls] ++ ms))
      (mem ++ [Msg.assistantToolCalls msg.tool_calls] ++ ms) (calls + 1)
    omega

/-- A successful single-call execution always yields the tool turn for the
resolved identifier and the call's function name. -/
theorem execCall_ok (cfg : LoopCfg) (i : Nat) (tc : ToolCall) (m : Msg)
    (h : execCall cfg i tc = Except.ok m) :
    ∃ r, m = Msg.toolResult (resolveId cfg.fresh i tc) tc.fn r := by
  simp only [execCall] at h
  split at h
  · cases h
  · cases h
    exact ⟨_, rfl⟩

/-- Shape of a successful tool batch: one tool turn per tool call, in call
order, the `j`-th turn carrying the `j`-th call's resolved identifier and
function name. -/
theorem execCallsFrom_spec (cfg : LoopCfg) :
    ∀ (tcs : List ToolCall) (i : Nat) (results : List Msg),
      execCallsFrom cfg i tcs = Except.ok results →
      results.length = tcs.length ∧
      ∀ (j : Nat) (hj : j < tcs.length) (hj' : j < results.length),
        ∃ r, results.get ⟨j, hj'⟩ =
          Msg.toolResult (resolveId cfg.fresh (i + j) (tcs.get ⟨j, hj⟩))
            (tcs.get ⟨j, hj⟩).fn r
  | [], i, results => by
    intro h
    simp only [execCallsFrom] at h
    cases h
    exact ⟨rfl, fun j hj _ => absurd hj (by simp)⟩
  | tc :: rest, i, results => by
    intro h
    simp only [execCallsFrom] at h
    rcases hc : execCall cfg i tc with e | m
    · rw [hc] at h; cases h
    · rw [hc] at h
      rcases hr : execCallsFrom cfg (i + 1) rest with e | ms
      · rw [hr] at h; cases h
      · rw [hr] at h
        cases h
        obtain ⟨hl, hids⟩ := execCallsFrom_spec cfg rest (i + 1) ms hr
        refine ⟨by simpa using hl, ?_⟩
        intro j hj hj'
        cases j with
        | zero =>
          obtain ⟨r, hm⟩ := execCall_ok cfg i tc m hc
          exact ⟨r, by simpa using hm⟩
        | succ jj =>
          have hj2 : jj < rest.length := by simpa using hj
          have hj2' : jj < ms.length := by simpa using hj'
          obtain ⟨r, hm⟩ := hids jj hj2 hj2'
          refine ⟨r, ?_⟩
          have harith : i + 1 + jj = i + (jj + 1) := by omega
          simpa [harith] using hm

/-- C3: a tool call whose name is absent from the registry yields, in both
loop variants, an ok result string that starts with "Error: unknown tool"
(first conjuncts: the dispatch never raises and produces exactly that
string; the data-prefix conjunct is the starts-with property); the
executed call appends precisely that string as the ToolResult turn, and a
run whose first reply consists of that call still ends normally after
issuing at least one subsequent gateway call. -/
theorem C3_unknown_tool (reg : Registry) (fn : Option String) (args : Args)
    (h : lookupTool reg fn = none) :
    (dispatchOrch reg fn args =
      Except.ok ("Error: unknown tool \x27" ++ pyStr fn ++ "\x27.")) ∧
    (dispatchRaw reg fn args =
      Except.ok ("Error: unknown tool \x27" ++ pyStr fn ++ "\x27.")) ∧
    ("Error: unknown tool".data <+:
      ("Error: unknown tool \x27" ++ pyStr fn ++ "\x27.").data) ∧
    (∀ (jsonLoads : String → Option Args) (fresh : Nat → String) (i : Nat)
        (tc : ToolCall), tc.fn = fn →
      execCall ⟨dispatchOrch reg, jsonLoads, fresh⟩ i tc =
        Except.ok (Msg.toolResult (resolveId fresh i tc) fn
          ("Error: unknown tool \x27" ++ pyStr fn ++ "\x27."))) ∧
    (∀ (jsonLoads : String → Option Args) (fresh : Nat → String)
        (replies : Nat → List Msg → Message) (mem0 : List Msg)
        (user_input : String) (n : Nat) (tc : ToolCall), tc.fn = fn →
      (replies 0 (mem0 ++ [Msg.user user_input])).tool_calls = [tc] →
      (BaseAgent.run ⟨dispatchOrch reg, jsonLoads, fresh⟩ replies mem0 user_input
        n).isDone = true ∧
      2 ≤ (BaseAgent.run ⟨dispatchOrch reg, jsonLoads, fresh⟩ replies mem0 user_input
        n).calls) := by
  refine ⟨by simp [dispatchOrch, h], by simp [dispatchRaw, h], ?_, ?_, ?_⟩
  · have base : "Error: unknown tool".data <+: "Error: unknown tool \x27".data := by
      decide
    have e1 : ("Error: unknown tool \x27" ++ pyStr fn ++ "\x27.").data =
        ("Error: unknown tool \x27".data ++ (pyStr fn).data) ++ "\x27.".data := rfl
    rw [e1]
    exact base.trans ((List.prefix_append _ _).trans (List.prefix_append _ _))
  · intro jsonLoads fresh i tc htc
    subst htc
    simp [execCall, dispatchOrch, h]
  · intro jsonLoads fresh replies mem0 user_input n tc htc h2
    constructor
    · exact runLoop_isDone _ replies (fun fn args => dispatchOrch_total reg fn args) _ _ _ _
    · have hne : (replies 0 (mem0 ++ [Msg.user user_input])).tool_calls.isEmpty = false := by
        rw [h2]; rfl
      simp only [BaseAgent.run]
      exact runLoop_calls_succ _ replies (fun fn args => dispatchOrch_total reg fn args)
        (n - 1) _ _ 1 hne

/-- A reply carrying one call of an unregistered tool name. -/
def ghostCall : ToolCall := ⟨some "id9", some "ghost", RawArgs.rdict []⟩

/-- Backend message used to exercise the unknown-tool path. -/
def ghostReply : Message := ⟨none, [ghostCall]⟩

/-- Witness for C3 on the concrete registry without a "ghost" tool. -/
theorem C3_unknown_tool_witness :
    dispatchOrch boomRegistry (some "ghost") [] =
      Except.ok ("Error: unknown tool \x27" ++ pyStr (some "ghost") ++ "\x27.") ∧
    2 ≤ (BaseAgent.run ⟨dispatchOrch boomRegistry, fun _ => none, fun _ => "gen"⟩
      (fun _ _ => ghostReply) [] "ask" 3).calls := by
  have h := C3_unknown_tool boomRegistry (some "ghost") [] (by rfl)
  exact ⟨h.1, (h.2.2.2.2 (fun _ => none) (fun _ => "gen") (fun _ _ => ghostReply)
    [] "ask" 3 ghostCall rfl rfl).2⟩

/-- C4: a string `raw_arguments` payload that fails JSON decoding parses
to the empty mapping; a registered tool named by such a call is still
invoked, with exactly that empty mapping (its rendered outcome is the
appended ToolResult); and a run whose first reply consists of such a call
ends normally after issuing a subsequent gateway call — the malformed
payload never terminates the loop. -/
theorem C4_malformed_args (jsonLoads : String → Option Args) (s : String)
    (hs : pyStrip s ≠ "") (hp : jsonLoads s = none) :
    (parseArgs jsonLoads (RawArgs.rstr s) = emptyArgs) ∧
    (∀ (reg : Registry) (nm : String) (f : Args → ToolOutcome)
        (fresh : Nat → String) (i : Nat) (tc : ToolCall),
      tc.fn = some nm → tc.raw_args = RawArgs.rstr s →
      lookupTool reg (some nm) = some f →
      execCall ⟨dispatchOrch reg, jsonLoads, fresh⟩ i tc =
        Except.ok (Msg.toolResult (resolveId fresh i tc) (some nm)
          (renderOutcomeOrch (some nm) (f emptyArgs)))) ∧
    (∀ (reg : Registry) (fresh : Nat → String) (replies : Nat → List Msg → Message)
        (mem0 : List Msg) (user_input : String) (n : Nat) (tc : ToolCall),
      tc.raw_args = RawArgs.rstr s →
      (replies 0 (mem0 ++ [Msg.user user_input])).tool_calls = [tc] →
      (BaseAgent.run ⟨dispatchOrch reg, jsonLoads, fresh⟩ replies mem0 user_input
        n).isDone = true ∧
      2 ≤ (BaseAgent.run ⟨dispatchOrch reg, jsonLoads, fresh⟩ replies mem0 user_input
        n).calls) := by
  have hparse : parseArgs jsonLoads (RawArgs.rstr s) = emptyArgs := by
    simp [parseArgs, hs, hp]
  refine ⟨hparse, ?_, ?_⟩
  · intro reg nm f fresh i tc htc hra hL
    simp [execCall, htc, hra, hparse, dispatchOrch, hL]
  · intro reg fresh replies mem0 user_input n tc _ h2
    constructor
    · exact runLoop_isDone _ replies (fun fn args => dispatchOrch_total reg fn args) _ _ _ _
    · have hne : (replies 0 (mem0 ++ [Msg.user user_input])).tool_calls.isEmpty = false := by
        rw [h2]; rfl
      simp only [BaseAgent.run]
      exact runLoop_calls_succ _ replies (fun fn args => dispatchOrch_total reg fn args)
        (n - 1) _ _ 1 hne

/-- Tool call whose argument payload is not valid JSON. -/
def badCall : ToolCall := ⟨some "id3", some "boom", RawArgs.rstr "\x7bbad json"⟩

/-- Backend message carrying that malformed tool call. -/
def badReply : Message := ⟨none, [badCall]⟩

/-- Witness for C4 on a concrete malformed payload against the concrete
registry: the tool is invoked with the empty mapping (here its outcome is
the rendered exception string) and the run makes a second gateway call. -/
theorem C4_malformed_args_witness :
    parseArgs (fun _ => none) (RawArgs.rstr "\x7bbad json") = emptyArgs ∧
    execCall ⟨dispatchOrch boomRegistry, fun _ => none, fun _ => "gen"⟩ 0 badCall =
      Except.ok (Msg.toolResult "id3" (some "boom")
        "Tool \x27boom\x27 failed: boom") ∧
    2 ≤ (BaseAgent.run ⟨dispatchOrch boomRegistry, fun _ => none, fun _ => "gen"⟩
      (fun _ _ => badReply) [] "divide ten by zero" 3).calls := by
  have h := C4_malformed_args (fun _ => none) "\x7bbad json" (by decide) rfl
  have h2 := h.2.1 boomRegistry "boom" (fun _ => ToolOutcome.exnOther "boom")
    (fun _ => "gen") 0 badCall rfl rfl rfl
  have h3 := h.2.2 boomRegistry (fun _ => "gen") (fun _ _ => badReply) []
    "divide ten by zero" 3 badCall rfl rfl
  exact ⟨h.1, by rw [h2]; rfl, h3.2⟩

/-- C7: a successfully executed tool-call batch appends exactly one
ToolResult turn per ToolCall, in the order of the calls, the `j`-th turn
bearing the `j`-th call's resolved identifier and name; and within the
loop those turns are placed on the channel (after the assistant turn
carrying the calls verbatim) before the next gateway request is consumed,
both when the loop continues and on its last budgeted iteration. -/
theorem C7_toolcall_roundtrip :
    (∀ (cfg : LoopCfg) (i : Nat) (tcs : List ToolCall) (results : List Msg),
      execCallsFrom cfg i tcs = Except.ok results →
      results.length = tcs.length ∧
      ∀ (j : Nat) (hj : j < tcs.length) (hj' : j < results.length),
        ∃ r, results.get ⟨j, hj'⟩ =
          Msg.toolResult (resolveId cfg.fresh (i + j) (tcs.get ⟨j, hj⟩))
            (tcs.get ⟨j, hj⟩).fn r) ∧
    (∀ (cfg : LoopCfg) (replies : Nat → List Msg → Message) (fuel : Nat)
        (msg : Message) (mem : List Msg) (calls : Nat) (results : List Msg),
      msg.tool_calls.isEmpty = false →
      execCallsFrom cfg 0 msg.tool_calls = Except.ok results →
      runLoop cfg replies (fuel + 1) msg mem calls =
        runLoop cfg replies fuel
          (replies calls (mem ++ [Msg.assistantToolCalls msg.tool_calls] ++ results))
          (mem ++ [Msg.assistantToolCalls msg.tool_calls] ++ results) (calls + 1) ∧
      runLoop cfg replies 0 msg mem calls =
        finishTurn
          (replies calls (mem ++ [Msg.assistantToolCalls msg.tool_calls] ++ results))
          (mem ++ [Msg.assistantToolCalls msg.tool_calls] ++ results) (calls + 1)) := by
  constructor
  · intro cfg i tcs results h
    exact execCallsFrom_spec cfg tcs i results h
  · intro cfg replies fuel msg mem calls results hne hok
    constructor <;> simp only [runLoop, hne, Bool.false_eq_true, if_false, hok]

/-- Tool call and batch used to witness the round-trip shape. -/
def boomCall : ToolCall := ⟨some "call_1", some "boom", RawArgs.rdict []⟩

/-- Loop configuration used to witness the round-trip shape. -/
def cfgW : LoopCfg := ⟨dispatchOrch boomRegistry, fun _ => none, fun _ => "gen"⟩

/-- The single tool turn produced by executing `boomCall` under `cfgW`. -/
def boomResult : Msg :=
  Msg.toolResult "call_1" (some "boom") "Tool \x27boom\x27 failed: boom"

/-- Witness for C7 on the concrete one-call batch: the batch produces one
turn with the call's identifier, and one loop iteration appends the
assistant turn plus that turn before consuming the next reply. -/
theorem C7_toolcall_roundtrip_witness :
    ([boomResult].length = [boomCall].length ∧
      ∃ r, [boomResult].get ⟨0, Nat.zero_lt_one⟩ =
        Msg.toolResult (resolveId cfgW.fresh (0 + 0) boomCall) boomCall.fn r) ∧
    runLoop cfgW (fun _ _ => boomReply) 2 boomReply [] 1 =
      runLoop cfgW (fun _ _ => boomReply) 1 boomReply
        ([] ++ [Msg.assistantToolCalls boomReply.tool_calls] ++ [boomResult]) 2 := by
  have h1 := C7_toolcall_roundtrip.1 cfgW 0 [boomCall] [boomResult] (by rfl)
  have h2 := C7_toolcall_roundtrip.2 cfgW (fun _ _ => boomReply) 1 boomReply [] 1
    [boomResult] (by rfl) (by rfl)
  exact ⟨⟨h1.1, h1.2 0 Nat.zero_lt_one Nat.zero_lt_one⟩, h2.1⟩

/-- Witness for C9 at the scenario input: dividing 10 by 0. -/
theorem C9_divide_by_zero_witness :
    divide_numbers 10 0 = "Error: Cannot divide by zero" ∧
    containsSub (pyLower (divide_numbers 10 0)) "cannot divide by zero" = true :=
  C9_divide_by_zero 10
